import Mathlib

/-!
Shallow embedding of the git-pr-watcher repository (Go) for checking its
natural-language specification.

Durations and timestamps are modelled as integers (nanoseconds, matching the
representation of time.Duration and the arithmetic of time.Time differences
in Go). External side effects (email dispatch, SMTP transport, HTML body
rendering) are modelled as oracle functions passed explicitly, so that the
control flow of the source is preserved while the environment stays abstract.
-/

namespace GitPRWatcher

/-- Embedding of the NotificationType enumeration from internal/notifier/email.go. -/
inductive NotificationType where
  | ApprovalReminder
  | MergeReminder
  | Escalation
  | DraftOverdue
  deriving DecidableEq, Repr

/-- Classified action: the notification decision for one pull request, including
the case in which no notification is due. The four non-None cases correspond to
the four send operations invoked by PRWatcher.processPR. -/
inductive Action where
  | None
  | ApprovalReminder
  | MergeReminder
  | Escalation
  | DraftOverdue
  deriving DecidableEq, Repr

/-- Embedding of the github.PullRequest snapshot (internal/github/client.go),
restricted to the fields the watcher and notifier read. CreatedAt is an absolute
timestamp in nanoseconds. -/
structure PullRequest where
  Number : Int
  Title : String
  Draft : Bool
  CreatedAt : Int
  ReviewCount : Int
  Approved : Bool
  Repo : String
  URL : String
  deriving DecidableEq, Repr

/-- Embedding of a GitHub review, restricted to the state string read by
Client.checkPRApprovals. -/
structure Review where
  State : String
  deriving DecidableEq, Repr

/-- Embedding of config.RulesConfig. All durations are nanoseconds. -/
structure RulesConfig where
  ApprovalTime : Int
  MergeReminderTime : Int
  MergeTime : Int
  DraftTime : Int
  CheckInterval : Int
  EscalationEmail : String
  deriving DecidableEq, Repr

/-- Embedding of config.EmailConfig. -/
structure EmailConfig where
  SMTPHost : String
  SMTPPort : Int
  SMTPUsername : String
  SMTPPassword : String
  From : String
  To : List String
  Subject : String
  RateLimit : Int
  RateTimeout : Int
  deriving DecidableEq, Repr

/-- Embedding of config.DebugConfig. -/
structure DebugConfig where
  Enabled : Bool
  Verbose : Bool
  SkipEmails : Bool
  Concurrency : Int
  deriving DecidableEq, Repr

/-- Embedding of config.GitHubConfig. -/
structure GitHubConfig where
  Token : String
  Owner : String
  Repos : List String
  deriving DecidableEq, Repr

/-- Embedding of config.Config. -/
structure Config where
  GitHub : GitHubConfig
  Email : EmailConfig
  Rules : RulesConfig
  Debug : DebugConfig
  deriving DecidableEq, Repr

/-- Nanoseconds in one millisecond (Go time.Millisecond). -/
def nsPerMillisecond : Int := 1000000

/-- Nanoseconds in one second (Go time.Second). -/
def nsPerSecond : Int := 1000000000

/-- Nanoseconds in one minute (Go time.Minute). -/
def nsPerMinute : Int := 60 * nsPerSecond

/-- Nanoseconds in one hour (Go time.Hour). -/
def nsPerHour : Int := 60 * nsPerMinute

/-- Embedding of setDefaults (internal/config/config.go): every zero-valued
field of the rules, email and debug sections is replaced by its default. -/
def setDefaults (c : Config) : Config :=
  let r := c.Rules
  let r := if r.ApprovalTime = 0 then { r with ApprovalTime := 2 * nsPerHour } else r
  let r := if r.MergeReminderTime = 0 then { r with MergeReminderTime := 4 * nsPerHour } else r
  let r := if r.MergeTime = 0 then { r with MergeTime := 6 * nsPerHour } else r
  let r := if r.DraftTime = 0 then { r with DraftTime := 96 * nsPerHour } else r
  let r := if r.CheckInterval = 0 then { r with CheckInterval := 1 * nsPerHour } else r
  let e := c.Email
  let e := if e.Subject = "" then { e with Subject := "PR Age Alert" } else e
  let e := if e.RateLimit = 0 then { e with RateLimit := 500 * nsPerMillisecond } else e
  let e := if e.RateTimeout = 0 then { e with RateTimeout := 30 * nsPerSecond } else e
  let d := c.Debug
  let d := if d.Concurrency = 0 then { d with Concurrency := 5 } else d
  { c with Rules := r, Email := e, Debug := d }

/-- Loop body of Client.checkPRApprovals: the accumulator is the pair of the
approved flag and the review count. -/
def checkPRApprovalsStep (acc : Bool × Int) (review : Review) : Bool × Int :=
  (if review.State = "APPROVED" then true else acc.1,
   if review.State ≠ "COMMENTED" then acc.2 + 1 else acc.2)

/-- Embedding of Client.checkPRApprovals (internal/github/client.go): one pass
over the reviews, setting the approved flag on any APPROVED review and counting
every review whose state is not COMMENTED. Returns (approved, reviewCount). -/
def checkPRApprovals (reviews : List Review) : Bool × Int :=
  reviews.foldl checkPRApprovalsStep (false, 0)

/-- Classification extracted from the branch structure of PRWatcher.processPR
(internal/watcher/watcher.go): the decision which notification, if any, a
snapshot receives, given the rule thresholds and the current time. The age is
now minus the creation timestamp, computed at evaluation time. -/
def classify (rules : RulesConfig) (now : Int) (pr : PullRequest) : Action :=
  if pr.Draft then
    if rules.DraftTime ≤ now - pr.CreatedAt then Action.DraftOverdue else Action.None
  else if rules.MergeTime ≤ now - pr.CreatedAt then Action.Escalation
  else if pr.ReviewCount < 2 ∧ rules.ApprovalTime ≤ now - pr.CreatedAt then Action.ApprovalReminder
  else if 2 ≤ pr.ReviewCount ∧ rules.MergeReminderTime ≤ now - pr.CreatedAt then Action.MergeReminder
  else Action.None

/-- Modelled from the claim wording for comparison with the source-derived
classification: a first-match priority list with the six explicitly spelled-out
rules (draft overdue, draft young, escalation, approval reminder under the
merge-time bound, merge reminder under the merge-time bound, otherwise none). -/
def classifySpecOrder (rules : RulesConfig) (now : Int) (pr : PullRequest) : Action :=
  if pr.Draft = true ∧ rules.DraftTime ≤ now - pr.CreatedAt then Action.DraftOverdue
  else if pr.Draft = true ∧ now - pr.CreatedAt < rules.DraftTime then Action.None
  else if pr.Draft = false ∧ rules.MergeTime ≤ now - pr.CreatedAt then Action.Escalation
  else if pr.Draft = false ∧ now - pr.CreatedAt < rules.MergeTime ∧ pr.ReviewCount < 2 ∧
      rules.ApprovalTime ≤ now - pr.CreatedAt then
    Action.ApprovalReminder
  else if pr.Draft = false ∧ now - pr.CreatedAt < rules.MergeTime ∧ 2 ≤ pr.ReviewCount ∧
      rules.MergeReminderTime ≤ now - pr.CreatedAt then
    Action.MergeReminder
  else Action.None

/-- Error entry recorded for a failed dispatch: PRWatcher.processPR wraps the
dispatch error in a message carrying the action kind and the PR number. -/
structure DispatchError where
  kind : NotificationType
  prNumber : Int
  deriving DecidableEq, Repr

/-- Embedding of watcher.NotificationResult: per-kind success counters plus the
accumulated list of dispatch errors. -/
structure NotificationResult where
  ApprovalReminders : Int
  MergeReminders : Int
  Escalations : Int
  DraftOverdue : Int
  Errors : List DispatchError
  deriving DecidableEq, Repr

/-- Zero-valued NotificationResult, as built by the result literal in Go. -/
def emptyResult : NotificationResult :=
  { ApprovalReminders := 0, MergeReminders := 0, Escalations := 0, DraftOverdue := 0, Errors := [] }

/-- Componentwise combination of two results, as performed by the aggregation
loop of PRWatcher.processPRsConcurrently. -/
def addResult (a b : NotificationResult) : NotificationResult :=
  { ApprovalReminders := a.ApprovalReminders + b.ApprovalReminders
    MergeReminders := a.MergeReminders + b.MergeReminders
    Escalations := a.Escalations + b.Escalations
    DraftOverdue := a.DraftOverdue + b.DraftOverdue
    Errors := a.Errors ++ b.Errors }

/-- Success counter of a result selected by notification kind. -/
def countOf (k : NotificationType) (r : NotificationResult) : Int :=
  match k with
  | NotificationType.ApprovalReminder => r.ApprovalReminders
  | NotificationType.MergeReminder => r.MergeReminders
  | NotificationType.Escalation => r.Escalations
  | NotificationType.DraftOverdue => r.DraftOverdue

/-- Sum of the four per-kind success counters of a result. -/
def sumCounts (r : NotificationResult) : Int :=
  r.ApprovalReminders + r.MergeReminders + r.Escalations + r.DraftOverdue

/-- Dispatch oracle: the outcome of one notifier send call for a given kind and
snapshot (true = success, false = the notifier returned an error). -/
def DispatchOracle : Type := NotificationType → PullRequest → Bool

/-- Embedding of PRWatcher.processPR (internal/watcher/watcher.go): classify one
snapshot and, when a notification is due, dispatch it through the oracle; a
successful dispatch increments the matching counter, a failed one appends one
tagged error entry instead. -/
def processPR (rules : RulesConfig) (now : Int) (dispatch : DispatchOracle)
    (pr : PullRequest) : NotificationResult :=
  if pr.Draft then
    if rules.DraftTime ≤ now - pr.CreatedAt then
      if dispatch NotificationType.DraftOverdue pr then
        { emptyResult with DraftOverdue := 1 }
      else
        { emptyResult with Errors := [⟨NotificationType.DraftOverdue, pr.Number⟩] }
    else emptyResult
  else if rules.MergeTime ≤ now - pr.CreatedAt then
    if dispatch NotificationType.Escalation pr then
      { emptyResult with Escalations := 1 }
    else
      { emptyResult with Errors := [⟨NotificationType.Escalation, pr.Number⟩] }
  else if pr.ReviewCount < 2 ∧ rules.ApprovalTime ≤ now - pr.CreatedAt then
    if dispatch NotificationType.ApprovalReminder pr then
      { emptyResult with ApprovalReminders := 1 }
    else
      { emptyResult with Errors := [⟨NotificationType.ApprovalReminder, pr.Number⟩] }
  else if 2 ≤ pr.ReviewCount ∧ rules.MergeReminderTime ≤ now - pr.CreatedAt then
    if dispatch NotificationType.MergeReminder pr then
      { emptyResult with MergeReminders := 1 }
    else
      { emptyResult with Errors := [⟨NotificationType.MergeReminder, pr.Number⟩] }
  else emptyResult

/-- Sequential rendition of the batch: every snapshot is processed exactly once
and the per-snapshot results are combined into the run result, as the
aggregation loop of PRWatcher.processPRsConcurrently does. -/
def processPRs (rules : RulesConfig) (now : Int) (dispatch : DispatchOracle)
    (prs : List PullRequest) : NotificationResult :=
  prs.foldl (fun acc pr => addResult acc (processPR rules now dispatch pr)) emptyResult

/-- Embedding of the worker-count defaulting in PRWatcher.CheckPRs
(internal/watcher/watcher.go): a configured concurrency of zero or below is
replaced by 5, any positive value is used as given. -/
def effectiveConcurrency (c : Int) : Int :=
  if c ≤ 0 then 5 else c

/-- Test for the error case of an Except value. -/
def isErr {ε α : Type} : Except ε α → Bool
  | Except.error _ => true
  | Except.ok _ => false

/-- Embedding of PRWatcher.CheckPRs (internal/watcher/watcher.go): the fetch
outcome is given as an Except value; a fetch error is returned immediately,
wrapped, with no run result; otherwise the batch runs over all fetched
snapshots with the defaulted worker count and the function returns the
finalized run result (the Go function logs it and returns nil). -/
def CheckPRs (cfg : Config) (now : Int) (dispatch : DispatchOracle)
    (fetch : Except String (List PullRequest)) : Except String NotificationResult :=
  match fetch with
  | Except.error e => Except.error ("failed to fetch pull requests: " ++ e)
  | Except.ok prs =>
      let _conc := effectiveConcurrency cfg.Debug.Concurrency
      Except.ok (processPRs cfg.Rules now dispatch prs)

/-!
Operational model of PRWatcher.processPRsConcurrently with cancellation
(internal/watcher/watcher.go, lines 627-675). The feeder moves snapshots from
the input sequence into the work queue; a worker takes the head of the queue
and, when the cancellation flag is not set, processes it and sends its result
to the aggregator (modelled as immediate combination, since the result channel
is buffered to full capacity and never blocks); when the flag is set at the
check before processing, the taken snapshot is dropped and the worker exits.
After cancellation the feeder may stop feeding; its select may also still
enqueue, so feeding stays enabled. Processing a snapshot is one atomic step:
an in-flight dispatch always runs to completion and its result is aggregated. -/

/-- State of one concurrent batch run: snapshots the feeder has not yet
enqueued, the work queue, the snapshots whose processing completed (in
completion order), the aggregated run result, and the cancellation flag. -/
structure BatchState where
  toFeed : List PullRequest
  queue : List PullRequest
  processed : List PullRequest
  result : NotificationResult
  cancelled : Bool
  deriving DecidableEq, Repr

/-- Initial state of a batch over an input sequence of snapshots. -/
def initBatch (prs : List PullRequest) : BatchState :=
  { toFeed := prs, queue := [], processed := [], result := emptyResult, cancelled := false }

/-- One step of the concurrent batch. -/
inductive BatchStep (rules : RulesConfig) (now : Int) (dispatch : DispatchOracle) :
    BatchState → BatchState → Prop where
  | feed (pr : PullRequest) (rest q p : List PullRequest) (res : NotificationResult) (c : Bool) :
      BatchStep rules now dispatch
        { toFeed := pr :: rest, queue := q, processed := p, result := res, cancelled := c }
        { toFeed := rest, queue := q ++ [pr], processed := p, result := res, cancelled := c }
  | feederStop (f q p : List PullRequest) (res : NotificationResult) :
      BatchStep rules now dispatch
        { toFeed := f, queue := q, processed := p, result := res, cancelled := true }
        { toFeed := [], queue := q, processed := p, result := res, cancelled := true }
  | work (pr : PullRequest) (f q p : List PullRequest) (res : NotificationResult) :
      BatchStep rules now dispatch
        { toFeed := f, queue := pr :: q, processed := p, result := res, cancelled := false }
        { toFeed := f, queue := q, processed := p ++ [pr],
          result := addResult res (processPR rules now dispatch pr), cancelled := false }
  | dropWork (pr : PullRequest) (f q p : List PullRequest) (res : NotificationResult) :
      BatchStep rules now dispatch
        { toFeed := f, queue := pr :: q, processed := p, result := res, cancelled := true }
        { toFeed := f, queue := q, processed := p, result := res, cancelled := true }
  | cancel (f q p : List PullRequest) (res : NotificationResult) :
      BatchStep rules now dispatch
        { toFeed := f, queue := q, processed := p, result := res, cancelled := false }
        { toFeed := f, queue := q, processed := p, result := res, cancelled := true }

/-- Reachability of a batch state from another by any number of steps. -/
def BatchReach (rules : RulesConfig) (now : Int) (dispatch : DispatchOracle) :
    BatchState → BatchState → Prop :=
  Relation.ReflTransGen (BatchStep rules now dispatch)

/-!
Embedding of the email notifier (internal/notifier/email.go). The SMTP
transport is an oracle giving the outcome of each DialAndSend attempt, and the
HTML body rendering is an oracle returning the body or a failure. The parameter
now is the wall-clock instant at which the send proceeds past the rate gate.
-/

/-- Embedding of notifier.EmailNotifier: configuration, skip flag, rate limit,
closed flag and the time of the last send. -/
structure EmailNotifier where
  config : EmailConfig
  skipEmails : Bool
  rateLimit : Int
  closed : Bool
  lastSent : Int
  deriving DecidableEq, Repr

/-- Embedding of notifier.NotificationData. -/
structure NotificationData where
  kind : NotificationType
  pullRequest : PullRequest
  Age : Int
  Threshold : Int
  Recipients : List String
  deriving DecidableEq, Repr

/-- Data built by EmailNotifier.SendApprovalReminder: recipients are the
configured To list. -/
def approvalReminderData (e : EmailNotifier) (pr : PullRequest) (age threshold : Int) :
    NotificationData :=
  { kind := NotificationType.ApprovalReminder, pullRequest := pr, Age := age,
    Threshold := threshold, Recipients := e.config.To }

/-- Data built by EmailNotifier.SendMergeReminder: recipients are the
configured To list. -/
def mergeReminderData (e : EmailNotifier) (pr : PullRequest) (age threshold : Int) :
    NotificationData :=
  { kind := NotificationType.MergeReminder, pullRequest := pr, Age := age,
    Threshold := threshold, Recipients := e.config.To }

/-- Data built by EmailNotifier.SendEscalation: recipients are the configured
To list, with the escalation email appended when it is non-empty. -/
def escalationData (e : EmailNotifier) (pr : PullRequest) (age threshold : Int)
    (escalationEmail : String) : NotificationData :=
  let recipients := e.config.To
  let recipients := if escalationEmail ≠ "" then recipients ++ [escalationEmail] else recipients
  { kind := NotificationType.Escalation, pullRequest := pr, Age := age,
    Threshold := threshold, Recipients := recipients }

/-- Data built by EmailNotifier.SendDraftOverdue: recipients are the configured
To list. -/
def draftOverdueData (e : EmailNotifier) (pr : PullRequest) (age threshold : Int) :
    NotificationData :=
  { kind := NotificationType.DraftOverdue, pullRequest := pr, Age := age,
    Threshold := threshold, Recipients := e.config.To }

/-- Outcome of one sendNotification call: the notifier state afterwards, the
returned error if any, and how many SMTP DialAndSend attempts were made. -/
structure SendOutcome where
  notifier : EmailNotifier
  error : Option String
  attempts : Nat
  deriving DecidableEq, Repr

/-- Embedding of EmailNotifier.sendNotification: a closed notifier returns an
error at once; with skipEmails set the send is skipped and reported successful;
otherwise the rate gate advances the last-sent clock (waiting out the remainder
of the rate interval when needed), the body is rendered, and up to three SMTP
attempts are made, stopping at the first success. -/
def sendNotification (e : EmailNotifier) (data : NotificationData) (now : Int)
    (renderBody : NotificationData → Option String) (transport : Nat → Bool) : SendOutcome :=
  if e.closed then
    { notifier := e, error := some "email notifier is closed", attempts := 0 }
  else if e.skipEmails then
    { notifier := e, error := none, attempts := 0 }
  else
    let lastSent := if now - e.lastSent < e.rateLimit then e.lastSent + e.rateLimit else now
    let e := { e with lastSent := lastSent }
    match renderBody data with
    | Option.none =>
        { notifier := e, error := some "failed to generate email body", attempts := 0 }
    | Option.some _ =>
        if transport 0 then { notifier := e, error := none, attempts := 1 }
        else if transport 1 then { notifier := e, error := none, attempts := 2 }
        else if transport 2 then { notifier := e, error := none, attempts := 3 }
        else { notifier := e, error := some "failed to send email after 3 retries", attempts := 3 }

/-- Embedding of EmailNotifier.SendApprovalReminder. -/
def SendApprovalReminder (e : EmailNotifier) (pr : PullRequest) (age threshold now : Int)
    (renderBody : NotificationData → Option String) (transport : Nat → Bool) : SendOutcome :=
  sendNotification e (approvalReminderData e pr age threshold) now renderBody transport

/-- Embedding of EmailNotifier.SendMergeReminder. -/
def SendMergeReminder (e : EmailNotifier) (pr : PullRequest) (age threshold now : Int)
    (renderBody : NotificationData → Option String) (transport : Nat → Bool) : SendOutcome :=
  sendNotification e (mergeReminderData e pr age threshold) now renderBody transport

/-- Embedding of EmailNotifier.SendEscalation. -/
def SendEscalation (e : EmailNotifier) (pr : PullRequest) (age threshold : Int)
    (escalationEmail : String) (now : Int)
    (renderBody : NotificationData → Option String) (transport : Nat → Bool) : SendOutcome :=
  sendNotification e (escalationData e pr age threshold escalationEmail) now renderBody transport

/-- Embedding of EmailNotifier.SendDraftOverdue. -/
def SendDraftOverdue (e : EmailNotifier) (pr : PullRequest) (age threshold now : Int)
    (renderBody : NotificationData → Option String) (transport : Nat → Bool) : SendOutcome :=
  sendNotification e (draftOverdueData e pr age threshold) now renderBody transport

/-- Embedding of EmailNotifier.Close: a no-op on an already closed notifier,
otherwise it sets the closed flag. -/
def Close (e : EmailNotifier) : EmailNotifier :=
  if e.closed then e else { e with closed := true }

/-- Action produced when a dispatch of the given kind fires. -/
def actionOfKind : NotificationType → Action
  | NotificationType.ApprovalReminder => Action.ApprovalReminder
  | NotificationType.MergeReminder => Action.MergeReminder
  | NotificationType.Escalation => Action.Escalation
  | NotificationType.DraftOverdue => Action.DraftOverdue

/-- Sample snapshot used for concrete evaluations. -/
def samplePR (n : Int) (draft : Bool) (created rc : Int) : PullRequest :=
  { Number := n, Title := "t", Draft := draft, CreatedAt := created, ReviewCount := rc,
    Approved := false, Repo := "r", URL := "u" }

/-- Configuration value with every field zero or empty. -/
def zeroConfig : Config :=
  { GitHub := { Token := "", Owner := "", Repos := [] }
    Email := { SMTPHost := "", SMTPPort := 0, SMTPUsername := "", SMTPPassword := "",
               From := "", To := [], Subject := "", RateLimit := 0, RateTimeout := 0 }
    Rules := { ApprovalTime := 0, MergeReminderTime := 0, MergeTime := 0, DraftTime := 0,
               CheckInterval := 0, EscalationEmail := "" }
    Debug := { Enabled := false, Verbose := false, SkipEmails := false, Concurrency := 0 } }

/-- Sample rule thresholds with small integer durations. -/
def sampleRules : RulesConfig :=
  { ApprovalTime := 2, MergeReminderTime := 4, MergeTime := 6, DraftTime := 96,
    CheckInterval := 1, EscalationEmail := "" }

theorem addResult_empty_left (r : NotificationResult) : addResult emptyResult r = r := by
  simp [addResult, emptyResult]

theorem addResult_empty_right (r : NotificationResult) : addResult r emptyResult = r := by
  simp [addResult, emptyResult]

theorem addResult_assoc (a b c : NotificationResult) :
    addResult (addResult a b) c = addResult a (addResult b c) := by
  simp [addResult, add_assoc]

theorem processPRs_foldl_acc (rules : RulesConfig) (now : Int) (dispatch : DispatchOracle)
    (l : List PullRequest) (acc : NotificationResult) :
    l.foldl (fun acc pr => addResult acc (processPR rules now dispatch pr)) acc =
      addResult acc (processPRs rules now dispatch l) := by
  induction l generalizing acc with
  | nil => simp [processPRs, addResult_empty_right]
  | cons pr l ih =>
      have hcons : processPRs rules now dispatch (pr :: l) =
          addResult (processPR rules now dispatch pr) (processPRs rules now dispatch l) := by
        simp only [processPRs, List.foldl_cons]
        have h2 := ih (addResult emptyResult (processPR rules now dispatch pr))
        simp only [processPRs] at h2
        rw [h2, addResult_empty_left]
      simp only [List.foldl_cons]
      rw [ih, hcons, addResult_assoc]

theorem processPRs_nil (rules : RulesConfig) (now : Int) (dispatch : DispatchOracle) :
    processPRs rules now dispatch [] = emptyResult := rfl

theorem processPRs_cons (rules : RulesConfig) (now : Int) (dispatch : DispatchOracle)
    (pr : PullRequest) (l : List PullRequest) :
    processPRs rules now dispatch (pr :: l) =
      addResult (processPR rules now dispatch pr) (processPRs rules now dispatch l) := by
  simp only [processPRs, List.foldl_cons]
  have h2 := processPRs_foldl_acc rules now dispatch l
    (addResult emptyResult (processPR rules now dispatch pr))
  simp only [processPRs] at h2
  rw [h2, addResult_empty_left]

theorem processPRs_append (rules : RulesConfig) (now : Int) (dispatch : DispatchOracle)
    (l₁ l₂ : List PullRequest) :
    processPRs rules now dispatch (l₁ ++ l₂) =
      addResult (processPRs rules now dispatch l₁) (processPRs rules now dispatch l₂) := by
  simp only [processPRs, List.foldl_append]
  have h2 := processPRs_foldl_acc rules now dispatch l₂
    (List.foldl (fun acc pr => addResult acc (processPR rules now dispatch pr)) emptyResult l₁)
  simp only [processPRs] at h2
  exact h2

theorem sumCounts_addResult (a b : NotificationResult) :
    sumCounts (addResult a b) = sumCounts a + sumCounts b := by
  simp [sumCounts, addResult]; ring

theorem sumCounts_processPR (rules : RulesConfig) (now : Int) (dispatch : DispatchOracle)
    (pr : PullRequest) (hd : ∀ k q, dispatch k q = true) :
    sumCounts (processPR rules now dispatch pr) =
      if classify rules now pr = Action.None then 0 else 1 := by
  unfold processPR classify
  split_ifs <;> simp_all [sumCounts, emptyResult]

/-- C1: for every snapshot and every set of rule thresholds, rule evaluation is
a total pure function producing exactly one classified action, and the decision
agrees with the stated first-match priority order: draft overdue, draft not yet
overdue (all other rules suppressed), escalation, approval reminder, merge
reminder, otherwise none. -/
theorem classification_priority_total (rules : RulesConfig) (now : Int) (pr : PullRequest) :
    classify rules now pr = classifySpecOrder rules now pr := by
  unfold classify classifySpecOrder
  by_cases hd : pr.Draft = true
  · by_cases h1 : rules.DraftTime ≤ now - pr.CreatedAt
    · rw [if_pos hd, if_pos h1, if_pos ⟨hd, h1⟩]
    · rw [if_pos hd, if_neg h1,
        if_neg (fun h : pr.Draft = true ∧ rules.DraftTime ≤ now - pr.CreatedAt => h1 h.2),
        if_pos ⟨hd, by omega⟩]
  · have hd0 : pr.Draft = false := by simpa using hd
    by_cases h2 : rules.MergeTime ≤ now - pr.CreatedAt
    · rw [if_neg hd, if_pos h2,
        if_neg (fun h : pr.Draft = true ∧ rules.DraftTime ≤ now - pr.CreatedAt => hd h.1),
        if_neg (fun h : pr.Draft = true ∧ now - pr.CreatedAt < rules.DraftTime => hd h.1),
        if_pos ⟨hd0, h2⟩]
    · by_cases h3 : pr.ReviewCount < 2 ∧ rules.ApprovalTime ≤ now - pr.CreatedAt
      · rw [if_neg hd, if_neg h2, if_pos h3,
          if_neg (fun h : pr.Draft = true ∧ rules.DraftTime ≤ now - pr.CreatedAt => hd h.1),
          if_neg (fun h : pr.Draft = true ∧ now - pr.CreatedAt < rules.DraftTime => hd h.1),
          if_neg (fun h : pr.Draft = false ∧ rules.MergeTime ≤ now - pr.CreatedAt => h2 h.2),
          if_pos ⟨hd0, by omega, h3.1, h3.2⟩]
      · by_cases h4 : 2 ≤ pr.ReviewCount ∧ rules.MergeReminderTime ≤ now - pr.CreatedAt
        · rw [if_neg hd, if_neg h2, if_neg h3, if_pos h4,
            if_neg (fun h : pr.Draft = true ∧ rules.DraftTime ≤ now - pr.CreatedAt => hd h.1),
            if_neg (fun h : pr.Draft = true ∧ now - pr.CreatedAt < rules.DraftTime => hd h.1),
            if_neg (fun h : pr.Draft = false ∧ rules.MergeTime ≤ now - pr.CreatedAt => h2 h.2),
            if_neg (fun h : pr.Draft = false ∧ now - pr.CreatedAt < rules.MergeTime ∧
                pr.ReviewCount < 2 ∧ rules.ApprovalTime ≤ now - pr.CreatedAt =>
              h3 ⟨h.2.2.1, h.2.2.2⟩),
            if_pos ⟨hd0, by omega, h4.1, h4.2⟩]
        · rw [if_neg hd, if_neg h2, if_neg h3, if_neg h4,
            if_neg (fun h : pr.Draft = true ∧ rules.DraftTime ≤ now - pr.CreatedAt => hd h.1),
            if_neg (fun h : pr.Draft = true ∧ now - pr.CreatedAt < rules.DraftTime => hd h.1),
            if_neg (fun h : pr.Draft = false ∧ rules.MergeTime ≤ now - pr.CreatedAt => h2 h.2),
            if_neg (fun h : pr.Draft = false ∧ now - pr.CreatedAt < rules.MergeTime ∧
                pr.ReviewCount < 2 ∧ rules.ApprovalTime ≤ now - pr.CreatedAt =>
              h3 ⟨h.2.2.1, h.2.2.2⟩),
            if_neg (fun h : pr.Draft = false ∧ now - pr.CreatedAt < rules.MergeTime ∧
                2 ≤ pr.ReviewCount ∧ rules.MergeReminderTime ≤ now - pr.CreatedAt =>
              h4 ⟨h.2.2.1, h.2.2.2⟩)]

/-- C4: a single run returns an error exactly when the fetch fails; dispatch
failures, however many, never surface as a run-level error, and a fetch failure
yields no run result at all. -/
theorem run_error_iff_fetch_error (cfg : Config) (now : Int) (dispatch : DispatchOracle)
    (fetch : Except String (List PullRequest)) :
    isErr (CheckPRs cfg now dispatch fetch) = isErr fetch := by
  cases fetch <;> rfl

/-- C8: a configured worker count of zero or below silently falls back to the
default of 5, while any count of at least 1 is used as given. -/
theorem worker_count_defaulting (c : Int) :
    (c ≤ 0 → effectiveConcurrency c = 5) ∧ (1 ≤ c → effectiveConcurrency c = c) := by
  constructor <;> intro h <;> simp [effectiveConcurrency] <;> omega

/-- Witness for C8 at the concrete worker counts -3 and 7. -/
theorem worker_count_defaulting_witness :
    effectiveConcurrency (-3) = 5 ∧ effectiveConcurrency 7 = 7 :=
  ⟨(worker_count_defaulting (-3)).1 (by decide), (worker_count_defaulting 7).2 (by decide)⟩

/-- C6: the rule thresholds produced by setDefaults from an all-zero
configuration are 2h, 4h, 6h and 96h, and with exactly these thresholds the six
concrete scenarios classify as stated. -/
theorem default_threshold_scenarios :
    (setDefaults zeroConfig).Rules.ApprovalTime = 2 * nsPerHour
    ∧ (setDefaults zeroConfig).Rules.MergeReminderTime = 4 * nsPerHour
    ∧ (setDefaults zeroConfig).Rules.MergeTime = 6 * nsPerHour
    ∧ (setDefaults zeroConfig).Rules.DraftTime = 96 * nsPerHour
    ∧ classify (setDefaults zeroConfig).Rules (1 * nsPerHour) (samplePR 1 false 0 0) =
        Action.None
    ∧ classify (setDefaults zeroConfig).Rules (3 * nsPerHour) (samplePR 2 false 0 0) =
        Action.ApprovalReminder
    ∧ classify (setDefaults zeroConfig).Rules (5 * nsPerHour) (samplePR 3 false 0 3) =
        Action.MergeReminder
    ∧ classify (setDefaults zeroConfig).Rules (7 * nsPerHour) (samplePR 4 false 0 3) =
        Action.Escalation
    ∧ classify (setDefaults zeroConfig).Rules (100 * nsPerHour) (samplePR 5 true 0 0) =
        Action.DraftOverdue
    ∧ classify (setDefaults zeroConfig).Rules (50 * nsPerHour) (samplePR 6 true 0 0) =
        Action.None := by
  refine ⟨rfl, rfl, rfl, rfl, ?_, ?_, ?_, ?_, ?_, ?_⟩ <;> rfl

theorem checkPRApprovals_foldl_snd (l : List Review) (acc : Bool × Int) :
    (l.foldl checkPRApprovalsStep acc).2 =
      acc.2 + ((l.filter (fun r => decide (r.State ≠ "COMMENTED"))).length : Int) := by
  induction l generalizing acc with
  | nil => simp
  | cons r l ih =>
      simp only [List.foldl_cons, ih, checkPRApprovalsStep, List.filter_cons]
      by_cases h : r.State = "COMMENTED"
      · simp [h]
      · simp only [h, decide_not]
        simp [h]
        ring

theorem checkPRApprovals_foldl_fst (l : List Review) (acc : Bool × Int) :
    (l.foldl checkPRApprovalsStep acc).1 =
      (acc.1 || l.any (fun r => decide (r.State = "APPROVED"))) := by
  induction l generalizing acc with
  | nil => simp
  | cons r l ih =>
      simp only [List.foldl_cons, ih, checkPRApprovalsStep, List.any_cons]
      by_cases h : r.State = "APPROVED" <;> simp [h]

/-- C7: the review count computed for a pull request is the number of reviews
whose state is not COMMENTED, the approved flag holds exactly when some review
has state APPROVED, and classification is independent of the approved flag. -/
theorem review_count_and_approval_semantics (reviews : List Review) (rules : RulesConfig)
    (now : Int) (pr : PullRequest) (b : Bool) :
    (checkPRApprovals reviews).2 =
      ((reviews.filter (fun r => decide (r.State ≠ "COMMENTED"))).length : Int)
    ∧ ((checkPRApprovals reviews).1 = true ↔ ∃ r ∈ reviews, r.State = "APPROVED")
    ∧ classify rules now { pr with Approved := b } = classify rules now pr := by
  refine ⟨?_, ?_, rfl⟩
  · have h := checkPRApprovals_foldl_snd reviews (false, 0)
    simpa [checkPRApprovals] using h
  · have h := checkPRApprovals_foldl_fst reviews (false, 0)
    simp only [checkPRApprovals, h]
    simp [List.any_eq_true]

theorem sumCounts_processPRs (rules : RulesConfig) (now : Int) (dispatch : DispatchOracle)
    (l : List PullRequest) (hd : ∀ k q, dispatch k q = true) :
    sumCounts (processPRs rules now dispatch l) =
      ((l.filter (fun pr => decide (classify rules now pr ≠ Action.None))).length : Int) := by
  induction l with
  | nil => simp [processPRs, emptyResult, sumCounts]
  | cons pr l ih =>
      rw [processPRs_cons, sumCounts_addResult, ih,
        sumCounts_processPR rules now dispatch pr hd]
      by_cases h : classify rules now pr = Action.None
      · simp [h, List.filter_cons]
      · simp only [h, if_false, List.filter_cons]
        simp [h]
        ring

/-- C2: in a batch in which every dispatch succeeds, the sum of the four
per-kind counters of the finalized run result equals the number of input
snapshots whose classification is not None, for every processing order of the
input snapshots (each snapshot processed and counted exactly once). -/
theorem batch_count_conservation (rules : RulesConfig) (now : Int) (dispatch : DispatchOracle)
    (prs order : List PullRequest) (hd : ∀ k q, dispatch k q = true)
    (hperm : order.Perm prs) :
    sumCounts (processPRs rules now dispatch order) =
      ((prs.filter (fun pr => decide (classify rules now pr ≠ Action.None))).length : Int) := by
  rw [sumCounts_processPRs rules now dispatch order hd]
  exact_mod_cast List.Perm.length_eq (hperm.filter _)

/-- Witness for C2: a two-snapshot batch consumed in swapped order, both
snapshots classifying as escalation, yields total count 2. -/
theorem batch_count_conservation_witness :
    sumCounts (processPRs sampleRules 10 (fun _ _ => true)
      [samplePR 2 false 0 3, samplePR 1 false 0 0]) = 2 := by
  have h := batch_count_conservation sampleRules 10 (fun _ _ => true)
    [samplePR 1 false 0 0, samplePR 2 false 0 3]
    [samplePR 2 false 0 3, samplePR 1 false 0 0]
    (fun _ _ => rfl) (by decide)
  exact h.trans (by decide)

theorem countOf_addResult (k : NotificationType) (a b : NotificationResult) :
    countOf k (addResult a b) = countOf k a + countOf k b := by
  cases k <;> simp [countOf, addResult]

theorem processPR_dispatch_failure (rules : RulesConfig) (now : Int)
    (dispatch : DispatchOracle) (pr : PullRequest) (k : NotificationType)
    (hclass : classify rules now pr = actionOfKind k) (hfail : dispatch k pr = false) :
    processPR rules now dispatch pr = { emptyResult with Errors := [⟨k, pr.Number⟩] } := by
  cases k <;>
    (unfold classify at hclass
     unfold processPR
     split_ifs at hclass ⊢ <;> simp_all [actionOfKind])

/-- C3: a snapshot with a non-None classification whose dispatch fails
contributes exactly one error entry tagged with its kind and PR number, does
not increment the success counter of that kind, and every other snapshot of the
batch is still processed and aggregated. -/
theorem dispatch_failure_isolation (rules : RulesConfig) (now : Int)
    (dispatch : DispatchOracle) (pr : PullRequest) (k : NotificationType)
    (pre suf : List PullRequest)
    (hclass : classify rules now pr = actionOfKind k) (hfail : dispatch k pr = false) :
    processPR rules now dispatch pr = { emptyResult with Errors := [⟨k, pr.Number⟩] }
    ∧ processPRs rules now dispatch (pre ++ pr :: suf) =
        addResult (processPRs rules now dispatch pre)
          (addResult (processPR rules now dispatch pr) (processPRs rules now dispatch suf))
    ∧ (processPRs rules now dispatch (pre ++ pr :: suf)).Errors =
        (processPRs rules now dispatch pre).Errors ++
          ⟨k, pr.Number⟩ :: (processPRs rules now dispatch suf).Errors
    ∧ countOf k (processPRs rules now dispatch (pre ++ pr :: suf)) =
        countOf k (processPRs rules now dispatch pre) +
          countOf k (processPRs rules now dispatch suf) := by
  have h1 := processPR_dispatch_failure rules now dispatch pr k hclass hfail
  have h2 : processPRs rules now dispatch (pre ++ pr :: suf) =
      addResult (processPRs rules now dispatch pre)
        (addResult (processPR rules now dispatch pr) (processPRs rules now dispatch suf)) := by
    rw [processPRs_append, processPRs_cons]
  refine ⟨h1, h2, ?_, ?_⟩
  · rw [h2, h1]
    simp [addResult, emptyResult]
  · rw [h2, h1, countOf_addResult, countOf_addResult]
    have h3 : countOf k { emptyResult with Errors := [⟨k, pr.Number⟩] } = 0 := by
      cases k <;> rfl
    rw [h3]
    ring

/-- Witness for C3: a lone escalation-classified snapshot whose dispatch fails
produces the single tagged error entry and no counter increment. -/
theorem dispatch_failure_isolation_witness :
    processPR sampleRules 10 (fun _ _ => false) (samplePR 1 false 0 0) =
      { emptyResult with Errors := [⟨NotificationType.Escalation, 1⟩] } :=
  (dispatch_failure_isolation sampleRules 10 (fun _ _ => false) (samplePR 1 false 0 0)
    NotificationType.Escalation [] [] (by decide) rfl).1

theorem batch_invariant (rules : RulesConfig) (now : Int) (dispatch : DispatchOracle)
    (prs : List PullRequest) (s : BatchState)
    (h : BatchReach rules now dispatch (initBatch prs) s) :
    s.result = processPRs rules now dispatch s.processed
    ∧ (s.processed ++ (s.queue ++ s.toFeed)).Sublist prs := by
  induction h with
  | refl =>
      refine ⟨rfl, ?_⟩
      simp [initBatch]
  | tail _ hstep ih =>
      obtain ⟨ih1, ih2⟩ := ih
      cases hstep with
      | feed pr rest q p res c =>
          refine ⟨ih1, ?_⟩
          simpa using ih2
      | feederStop f q p res =>
          refine ⟨ih1, ?_⟩
          refine List.Sublist.trans ?_ ih2
          simp only [List.append_nil]
          exact (List.append_sublist_append_left p).mpr (List.sublist_append_left q f)
      | work pr f q p res =>
          constructor
          · simp only at ih1 ⊢
            rw [processPRs_append, processPRs_cons, processPRs_nil, addResult_empty_right, ih1]
          · simpa using ih2
      | dropWork pr f q p res =>
          refine ⟨ih1, ?_⟩
          refine List.Sublist.trans ?_ ih2
          simp only
          refine (List.append_sublist_append_left p).mpr ?_
          exact List.Sublist.cons pr (List.Sublist.refl (q ++ f))
      | cancel f q p res =>
          exact ⟨ih1, ih2⟩

/-- C5: in every reachable state of a cancelled or uncancelled batch run, the
aggregated run result is exactly the combination of the per-snapshot results of
the snapshots whose processing completed, and those snapshots form a
subsequence of the input; a worker that observes cancellation processes no
further snapshot. -/
theorem cancellation_reports_completed_results (rules : RulesConfig) (now : Int)
    (dispatch : DispatchOracle) (prs : List PullRequest) (s : BatchState)
    (h : BatchReach rules now dispatch (initBatch prs) s) :
    s.result = processPRs rules now dispatch s.processed ∧ s.processed.Sublist prs := by
  obtain ⟨h1, h2⟩ := batch_invariant rules now dispatch prs s h
  exact ⟨h1, (List.sublist_append_left s.processed _).trans h2⟩

/-- Witness for C5: a batch over one snapshot that is fed, then cancelled, then
dropped by the worker reports the empty run result, matching the empty list of
completed snapshots. -/
theorem cancellation_reports_completed_results_witness :
    ({ toFeed := [], queue := [], processed := [], result := emptyResult, cancelled := true } :
        BatchState).result =
      processPRs sampleRules 10 (fun _ _ => true)
        ({ toFeed := [], queue := [], processed := [], result := emptyResult,
           cancelled := true } : BatchState).processed
    ∧ ({ toFeed := [], queue := [], processed := [], result := emptyResult, cancelled := true } :
        BatchState).processed.Sublist [samplePR 1 false 0 0] :=
  cancellation_reports_completed_results sampleRules 10 (fun _ _ => true)
    [samplePR 1 false 0 0]
    { toFeed := [], queue := [], processed := [], result := emptyResult, cancelled := true }
    (Relation.ReflTransGen.tail
      (Relation.ReflTransGen.tail
        (Relation.ReflTransGen.tail Relation.ReflTransGen.refl
          (BatchStep.feed (samplePR 1 false 0 0) [] [] [] emptyResult false))
        (BatchStep.cancel [] [samplePR 1 false 0 0] [] emptyResult))
      (BatchStep.dropWork (samplePR 1 false 0 0) [] [] [] emptyResult))

/-- C9: an escalation dispatch addresses the configured To list with the
escalation email appended exactly when it is non-empty, while approval
reminder, merge reminder and draft overdue dispatches always address exactly
the configured To list. -/
theorem notification_recipients (e : EmailNotifier) (pr : PullRequest)
    (age threshold : Int) (escalationEmail : String) :
    (escalationEmail ≠ "" →
      (escalationData e pr age threshold escalationEmail).Recipients =
        e.config.To ++ [escalationEmail])
    ∧ (escalationEmail = "" →
      (escalationData e pr age threshold escalationEmail).Recipients = e.config.To)
    ∧ (approvalReminderData e pr age threshold).Recipients = e.config.To
    ∧ (mergeReminderData e pr age threshold).Recipients = e.config.To
    ∧ (draftOverdueData e pr age threshold).Recipients = e.config.To := by
  refine ⟨?_, ?_, rfl, rfl, rfl⟩ <;> intro h <;> simp [escalationData, h]

/-- Sample notifier used for concrete evaluations. -/
def sampleNotifier : EmailNotifier :=
  { config := { SMTPHost := "smtp", SMTPPort := 25, SMTPUsername := "", SMTPPassword := "",
                From := "from", To := ["team"], Subject := "s", RateLimit := 1,
                RateTimeout := 1 }
    skipEmails := false
    rateLimit := 1
    closed := false
    lastSent := 0 }

/-- Witness for C9 at a non-empty and at an empty escalation email. -/
theorem notification_recipients_witness :
    (escalationData sampleNotifier (samplePR 1 false 0 0) 1 1 "boss").Recipients =
      sampleNotifier.config.To ++ ["boss"]
    ∧ (escalationData sampleNotifier (samplePR 1 false 0 0) 1 1 "").Recipients =
      sampleNotifier.config.To :=
  ⟨(notification_recipients sampleNotifier (samplePR 1 false 0 0) 1 1 "boss").1 (by decide),
   (notification_recipients sampleNotifier (samplePR 1 false 0 0) 1 1 "").2.1 rfl⟩

/-- C10: after Close, each of the four send operations returns the closed error
with no SMTP attempt and without touching the notifier state (in particular the
rate-limit clock), and Close is idempotent. -/
theorem closed_notifier_rejects_sends (e : EmailNotifier) (pr : PullRequest)
    (age threshold now : Int) (escalationEmail : String)
    (renderBody : NotificationData → Option String) (transport : Nat → Bool) :
    SendApprovalReminder (Close e) pr age threshold now renderBody transport =
      { notifier := Close e, error := some "email notifier is closed", attempts := 0 }
    ∧ SendMergeReminder (Close e) pr age threshold now renderBody transport =
      { notifier := Close e, error := some "email notifier is closed", attempts := 0 }
    ∧ SendEscalation (Close e) pr age threshold escalationEmail now renderBody transport =
      { notifier := Close e, error := some "email notifier is closed", attempts := 0 }
    ∧ SendDraftOverdue (Close e) pr age threshold now renderBody transport =
      { notifier := Close e, error := some "email notifier is closed", attempts := 0 }
    ∧ Close (Close e) = Close e := by
  have hc : (Close e).closed = true := by
    unfold Close
    split_ifs with h
    · exact h
    · rfl
  refine ⟨?_, ?_, ?_, ?_, ?_⟩
  · simp [SendApprovalReminder, sendNotification, hc]
  · simp [SendMergeReminder, sendNotification, hc]
  · simp [SendEscalation, sendNotification, hc]
  · simp [SendDraftOverdue, sendNotification, hc]
  · by_cases h : e.closed <;> simp [Close, h]

end GitPRWatcher
